import Mathlib

/-!
# Verification of the DocForgeHub document-generation pipeline

A shallow embedding of the core of `src/agent/agent_graph.py`,
`src/agent/schema_helpers.py` and `src/agent/validation_helpers.py`:
the schema model queries, the structural validator, the quality gate
and the bounded repair loop.  Python strings are Lean `String`s
(lists of Unicode code points, matching Python's `len`/indexing),
Python dicts with known keys are Lean structures whose fields encode
the `dict.get` defaults used at each call site, and the LLM calls are
abstracted as oracle function parameters.

All string primitives are re-implemented structurally (with explicit
fuel where the natural recursion is not structural) so that every
definition reduces inside the kernel and concrete instances can be
settled by `decide`.
-/

/-! ## Python string primitives -/

/-- Python whitespace (`str.strip`, `\s`) restricted to its ASCII members. -/
def pyIsSpace (c : Char) : Bool :=
  c = ' ' || c = '\t' || c = '\n' || c = '\r' || c = '\x0b' || c = '\x0c'

/-- Python `str.strip()`: remove leading and trailing whitespace. -/
def pyStrip (s : String) : String :=
  ⟨((s.data.dropWhile pyIsSpace).reverse.dropWhile pyIsSpace).reverse⟩

/-- Python `str.lstrip("#")`: remove leading `#` characters. -/
def pyLstripHash (s : String) : String :=
  ⟨s.data.dropWhile (fun c => c = '#')⟩

/-- Python `str.lower()` (ASCII case mapping). -/
def pyLower (s : String) : String :=
  ⟨s.data.map Char.toLower⟩

/-- Python `s.startswith(p)`. -/
def pyStartsWith (s p : String) : Bool :=
  p.data.isPrefixOf s.data

/-- Contiguous-substring test on character lists (empty needle matches),
the semantics of Python's `needle in hay`. -/
def charsContain (hay needle : List Char) : Bool :=
  match hay with
  | [] => needle.isPrefixOf []
  | _ :: t => needle.isPrefixOf hay || charsContain t needle

/-- Python `needle in hay`. -/
def pyContains (hay needle : String) : Bool :=
  charsContain hay.data needle.data

/-- Worker for `pySplit`; the fuel starts at `|l| + 1` and each step
consumes at least one character, so the fuel never runs out. -/
def pySplitAux (sep : List Char) : Nat → List Char → List Char → List (List Char)
  | 0, l, acc => [acc.reverse ++ l]
  | fuel + 1, l, acc =>
    match l with
    | [] => [acc.reverse]
    | c :: rest =>
      if sep.isPrefixOf (c :: rest) then
        acc.reverse :: pySplitAux sep fuel ((c :: rest).drop sep.length) []
      else
        pySplitAux sep fuel rest (c :: acc)

/-- Python `s.split(sep)` for a non-empty separator: non-overlapping,
scanned left to right; `"".split(sep) = [""]`. -/
def pySplit (s sep : String) : List String :=
  (pySplitAux sep.data (s.data.length + 1) s.data []).map (fun cs => ⟨cs⟩)

/-- Python `sep.join(l)`. -/
def pyJoin (sep : String) : List String → String
  | [] => ""
  | [x] => x
  | x :: y :: rest => x ++ sep ++ pyJoin sep (y :: rest)

/-- Python `hay.count(needle)` for a non-empty needle:
non-overlapping occurrences scanned left to right. -/
def pyCount (hay needle : String) : Nat :=
  (pySplit hay needle).length - 1

/-- Python `len(s)` (code points). -/
def pyLen (s : String) : Nat :=
  s.data.length

/-- The word characters of Python's `\w` (ASCII part): alphanumerics and `_`. -/
def pyIsWord (c : Char) : Bool :=
  c.isAlphanum || c = '_'

/-! ## `_normalise_heading` (validation_helpers.py lines 19-28)

`re.sub(r"^\d+(\.\d+)*\.?\s*", "", text)` removes one leading numeric
prefix; since every part of the pattern after `\d+` is optional and the
greedy quantifiers never need to backtrack, the match equals the
deterministic parse below. -/

/-- The `(\.\d+)*` part of the prefix pattern: repeatedly consume a dot
followed by at least one digit.  Each step consumes at least two
characters, so fuel `|l|` suffices. -/
def dropDotDigitGroupsFuel : Nat → List Char → List Char
  | 0, l => l
  | fuel + 1, l =>
    match l with
    | '.' :: c :: r =>
      if c.isDigit then dropDotDigitGroupsFuel fuel ((c :: r).dropWhile Char.isDigit)
      else '.' :: c :: r
    | _ => l

/-- `re.sub(r"^\d+(\.\d+)*\.?\s*", "", ·)` on the character list. -/
def dropLeadingNumber (cs : List Char) : List Char :=
  if (cs.takeWhile Char.isDigit).isEmpty then cs
  else
    let rest := dropDotDigitGroupsFuel cs.length (cs.dropWhile Char.isDigit)
    let rest := match rest with
      | '.' :: r => r
      | r => r
    rest.dropWhile pyIsSpace

/-- `_normalise_heading`: strip `#` markers, a leading numeric prefix like
`"4.1 "`, and punctuation, then lowercase (validation_helpers.py 19-28;
identical copy in agent_graph.py 490-499). -/
def _normalise_heading (raw : String) : String :=
  let t := pyStrip (pyLstripHash (pyStrip raw))
  let t := dropLeadingNumber t.data
  let t := t.filter (fun c => pyIsWord c || pyIsSpace c)
  pyStrip (pyLower ⟨t⟩)

/-- C7: The heading-normalization function maps `"### 4.1. Customer Impact"`
and `"customer impact"` to the same normalized string (stripping the `#`
markers, the leading numeric prefix, punctuation, and case), so the two are
treated as equivalent for allowlist matching. -/
theorem normalise_heading_equates_numbered_and_plain :
    _normalise_heading "### 4.1. Customer Impact" = _normalise_heading "customer impact" := by
  decide

/-! ## Data model

The `required_section` schema is a MongoDB document; the structures
below model exactly the keys the embedded code reads, with
absent-vs-present encoded as `Option` where a call site distinguishes
the two (`.get("type")` vs `.get("type", "text")`) and as the `.get`
default otherwise (a missing `subsections` key and an empty list are
both falsy in Python, so both are `[]` here). -/

structure Subsection where
  title : String
  stype : Option String
  columns : List String
  order : Int
deriving DecidableEq, Repr

structure SchemaSection where
  title : String
  stype : Option String
  subsections : List Subsection
  columns : List String
deriving DecidableEq, Repr

structure Schema where
  sections : List SchemaSection
  document_name : String
  document_type : String
deriving DecidableEq, Repr

/-! ## Schema model queries (schema_helpers.py; identical copies in
agent_graph.py) -/

/-- `is_table_only_schema` (schema_helpers.py 120-139; agent_graph.py
170-185): `False` on an empty/absent section list, otherwise every
section must have `type == "table"` and a falsy `subsections`. -/
def is_table_only_schema (required_section : Schema) : Bool :=
  if required_section.sections.isEmpty then false
  else required_section.sections.all fun schema_section =>
    schema_section.stype == some "table" && schema_section.subsections.isEmpty

/-- `get_table_columns` (schema_helpers.py 142-147): columns of the first
`type == "table"` section, or `[]`. -/
def get_table_columns (required_section : Schema) : List String :=
  match required_section.sections.find? (fun s => s.stype == some "table") with
  | some s => s.columns
  | none => []

/-- `get_table_section_title` (schema_helpers.py 150-176): title of the
first table section whose stripped title is non-empty, else
`document_name`, else `document_type`, else `"Data Table"`. -/
def get_table_section_title (required_section : Schema) : String :=
  match required_section.sections.find?
      (fun s => s.stype == some "table" && pyStrip s.title != "") with
  | some s => pyStrip s.title
  | none =>
    if pyStrip required_section.document_name ≠ "" then
      pyStrip required_section.document_name
    else if pyStrip required_section.document_type ≠ "" then
      pyStrip required_section.document_type
    else "Data Table"

/-- C6: `is_table_only_schema` returns true iff the section list is
non-empty and every section has `type = "table"` and an empty (or absent)
subsections list; an empty or missing section list yields false. -/
theorem is_table_only_schema_iff (schema : Schema) :
    is_table_only_schema schema = true ↔
      schema.sections ≠ [] ∧
        ∀ sec ∈ schema.sections, sec.stype = some "table" ∧ sec.subsections = [] := by
  unfold is_table_only_schema
  rcases h : schema.sections with _ | ⟨s, rest⟩ <;>
    simp [h, List.all_eq_true, List.isEmpty_iff, and_comm]

/-! ## Q&A formatting (schema_helpers.py 22-51; identical copy in
agent_graph.py 96-118)

An answer is either a string or a list (of values rendered with `str`,
modelled as strings).  The optional `answers` key of a
`structured_list` item is modelled pre-serialized: `answers_json = some js`
stands for a truthy `answers` value whose `json.dumps(..., indent=2)`
rendering is `js`, and `none` for an absent or falsy one. -/

inductive AnswerValue where
  | str (s : String)
  | vlist (items : List String)
deriving DecidableEq, Repr

structure QAItem where
  question : String
  answer : AnswerValue
  category : Option String
  answer_type : Option String
  answers_json : Option String
deriving DecidableEq, Repr

/-- The answer string the formatter computes before the truthiness test
(`json.dumps` branch, list join branch, plain string). -/
def renderedAnswer (qa : QAItem) : String :=
  match qa.answer_type, qa.answers_json with
  | some "structured_list", some js => js
  | _, _ =>
    match qa.answer with
    | .str s => s
    | .vlist items => pyJoin ", " items

/-- The three lines appended for one Q&A item. -/
def qaLines (qa : QAItem) : List String :=
  ["**Q:** " ++ qa.question,
   "**A:** " ++ (if renderedAnswer qa ≠ "" then renderedAnswer qa else "(not provided)"),
   ""]

/-- The line list built by `format_questions_and_answers_for_prompt`,
threading the `current_category` state. -/
def qaPromptLinesAux : String → List QAItem → List String
  | _, [] => []
  | current_category, qa :: rest =>
    let category := qa.category.getD "General"
    if category ≠ current_category then
      ("\n### " ++ category) :: (qaLines qa ++ qaPromptLinesAux category rest)
    else
      qaLines qa ++ qaPromptLinesAux current_category rest

/-- `format_questions_and_answers_for_prompt` (schema_helpers.py 22-51). -/
def format_questions_and_answers_for_prompt (qa_list : List QAItem) : String :=
  pyJoin "\n" (qaPromptLinesAux "" qa_list)

/-- Every line of an item's `qaLines` block appears in the formatter's
output line list, whatever the starting category state. -/
theorem qaLines_subset :
    ∀ (l : List QAItem) (cur : String) (qa : QAItem), qa ∈ l →
      ∀ x ∈ qaLines qa, x ∈ qaPromptLinesAux cur l := by
  intro l
  induction l with
  | nil => intro cur qa h; cases h
  | cons hd tl ih =>
    intro cur qa hmem x hx
    rcases List.mem_cons.mp hmem with rfl | htl
    · simp only [qaPromptLinesAux]
      split
      · exact List.mem_cons_of_mem _ (List.mem_append_left _ hx)
      · exact List.mem_append_left _ hx
    · simp only [qaPromptLinesAux]
      split
      · exact List.mem_cons_of_mem _ (List.mem_append_right _ (ih _ qa htl x hx))
      · exact List.mem_append_right _ (ih _ qa htl x hx)

/-- The item used to refute C3: an empty-string answer. -/
def emptyAnswerItem : QAItem :=
  ⟨"What happened", .str "", none, none, none⟩

/-- C3 counterexample: an item whose answer is the empty string is NOT
excluded from the prompt text — its `**Q:**` line appears, and its answer
is rendered as `(not provided)`.  This refutes the claim that such items
are excluded from the formatted Q&A block. -/
theorem empty_answer_item_appears_in_prompt :
    format_questions_and_answers_for_prompt [emptyAnswerItem] =
      "\n### General\n**Q:** What happened\n**A:** (not provided)\n" := by
  decide

/-- C3 (amended): an item with an empty or whitespace-only answer is NOT
excluded from the prompt text: for every Q&A list, every item contributes
its question line and an answer line to the formatted block (a falsy
answer — empty string or empty list — is rendered as `(not provided)`,
and a whitespace-only answer is rendered verbatim). -/
theorem qa_items_never_excluded (qa_list : List QAItem) (qa : QAItem)
    (h : qa ∈ qa_list) :
    ("**Q:** " ++ qa.question) ∈ qaPromptLinesAux "" qa_list ∧
    ("**A:** " ++ (if renderedAnswer qa ≠ "" then renderedAnswer qa else "(not provided)"))
      ∈ qaPromptLinesAux "" qa_list :=
  ⟨qaLines_subset qa_list "" qa h _ (by simp [qaLines]),
   qaLines_subset qa_list "" qa h _ (by simp [qaLines])⟩

/-- Witness for C3 (amended) at a concrete whitespace-only answer item. -/
theorem qa_items_never_excluded_witness :
    ("**Q:** Q1" ∈ qaPromptLinesAux "" [⟨"Q1", .str " ", none, none, none⟩] ∧
     "**A:**  " ∈ qaPromptLinesAux "" [⟨"Q1", .str " ", none, none, none⟩]) := by
  have h := qa_items_never_excluded [⟨"Q1", .str " ", none, none, none⟩]
    ⟨"Q1", .str " ", none, none, none⟩ (by decide)
  simpa [renderedAnswer] using h

/-! ## Structural validator (validation_helpers.py 31-196; identical copy
in agent_graph.py 502-667) -/

/-- One entry of the expected-section list: `{title, type, columns}` with
the `.get` defaults already applied (`type` defaults to `"text"`,
`columns` to `[]`). -/
structure ExpectedSection where
  title : String
  etype : String
  columns : List String
deriving DecidableEq, Repr

/-- Stable insertion for `sortSubsectionsByOrder`: an element stops at
the first entry with an order not below its own, so earlier list
positions win ties, as in Python's stable `sorted`. -/
def insertByOrder (x : Subsection) : List Subsection → List Subsection
  | [] => [x]
  | y :: r => if y.order < x.order then y :: insertByOrder x r else x :: y :: r

/-- `sorted(subsections, key=lambda s: s.get("order", 0))`: a stable sort
by the `order` key (stable sorts by a total preorder are unique, so this
equals Python's mergesort output). -/
def sortSubsectionsByOrder (l : List Subsection) : List Subsection :=
  l.foldr insertByOrder []

/-- The expected-section list (validation_helpers.py 48-69): every
subsection with a non-empty stripped title, sorted by `order`, from every
section; a section with a falsy `subsections` contributes its own title
instead, when non-empty. -/
def buildExpectedSections (required_section : Schema) : List ExpectedSection :=
  required_section.sections.flatMap fun schema_section =>
    if ¬ schema_section.subsections.isEmpty then
      (sortSubsectionsByOrder schema_section.subsections).filterMap fun subsection_item =>
        if pyStrip subsection_item.title ≠ "" then
          some ⟨pyStrip subsection_item.title, subsection_item.stype.getD "text",
                subsection_item.columns⟩
        else none
    else
      if pyStrip schema_section.title ≠ "" then
        [⟨pyStrip schema_section.title, schema_section.stype.getD "text",
          schema_section.columns⟩]
      else []

/-- The document headings as `(line_index, raw_text)` pairs
(validation_helpers.py 79-83): lines whose stripped form starts with
`#`, with `raw_text = line.strip().lstrip("#").strip()`. -/
def docHeadings (document_text : String) : List (Nat × String) :=
  ((pySplit document_text "\n").enum).filterMap fun p =>
    if pyStartsWith (pyStrip p.2) "#" then
      some (p.1, pyStrip (pyLstripHash (pyStrip p.2)))
    else none

/-- `(line_index, normalised_heading)` pairs (validation_helpers.py 84-86). -/
def docHeadingsNorm (document_text : String) : List (Nat × String) :=
  (docHeadings document_text).map fun p => (p.1, _normalise_heading p.2)

/-- Python `dict` assignment on an association list: overwrite the value
at an existing key in place, else append. -/
def dictInsert {β : Type} (k : String) (v : β) (d : List (String × β)) :
    List (String × β) :=
  if d.any (fun p => p.1 = k) then
    d.map (fun p => if p.1 = k then (k, v) else p)
  else d ++ [(k, v)]

/-- A Python `dict` built from a key/value sequence: insertion order of
first occurrence, last value wins. -/
def dictOfList {β : Type} (l : List (String × β)) : List (String × β) :=
  l.foldl (fun d p => dictInsert p.1 p.2 d) []

/-- The normalised allowlist (validation_helpers.py 90-93):
`normalised title → schema entry`. -/
def allowlistOf (required_section : Schema) : List (String × ExpectedSection) :=
  dictOfList ((buildExpectedSections required_section).map fun e =>
    (_normalise_heading e.title, e))

/-- The `"Missing required section: '<title>'"` error string. -/
def missingMsg (title : String) : String :=
  "Missing required section: \x27" ++ title ++ "\x27"

/-- CHECK 1 (validation_helpers.py 95-100): a missing-section error for
every allowlist entry whose normalised title is contained in no document
heading's normalised form. -/
def missingSectionErrors (allowlist : List (String × ExpectedSection))
    (headingsNorm : List (Nat × String)) : List String :=
  allowlist.filterMap fun p =>
    if headingsNorm.any (fun h => pyContains h.2 p.1) then none
    else some (missingMsg p.2.title)

/-- The `"Extra section not in schema: ..."` error string. -/
def extraMsg (raw_heading : String) : String :=
  "Extra section not in schema: \x27" ++ raw_heading ++
    "\x27 — remove it, the document must only contain schema-defined sections."

/-- The skip-list (validation_helpers.py 110-120): normalised document
name, document type and parent section titles, kept when non-empty.
(The Python `set` is modelled as a list; it is only consumed by `any`,
for which duplicates and order are irrelevant.) -/
def skipHeadingsOf (required_section : Schema) : List String :=
  (if _normalise_heading required_section.document_name ≠ "" then
     [_normalise_heading required_section.document_name] else []) ++
  (if _normalise_heading required_section.document_type ≠ "" then
     [_normalise_heading required_section.document_type] else []) ++
  required_section.sections.filterMap (fun schema_section =>
    if _normalise_heading schema_section.title ≠ "" then
      some (_normalise_heading schema_section.title)
    else none)

/-- CHECK 2 (validation_helpers.py 122-138): flag every document heading
matching neither the allowlist (substring containment in either
direction) nor the skip-list. -/
def extraSectionErrors (required_section : Schema)
    (allowlist : List (String × ExpectedSection))
    (headings headingsNorm : List (Nat × String)) : List String :=
  (headings.zip headingsNorm).filterMap fun hp =>
    let in_allowlist := allowlist.any fun p =>
      pyContains hp.2.2 p.1 || pyContains p.1 hp.2.2
    let in_skip := (skipHeadingsOf required_section).any fun sk =>
      pyContains hp.2.2 sk || pyContains sk hp.2.2
    if ¬ in_allowlist && ¬ in_skip then some (extraMsg hp.1.2) else none

/-- Inner loop of the `re.search(r"\|[\s\-|]+\|", ...)` test: after an
opening `|`, scan class characters (whitespace, `-`, `|`) until a `|`
preceded by at least one class character is found. -/
def sepRowAfterBar : List Char → Bool → Bool
  | [], _ => false
  | c :: rest, seen =>
    if c = '|' && seen then true
    else if pyIsSpace c || c = '-' || c = '|' then sepRowAfterBar rest true
    else false

/-- `re.search(r"\|[\s\-|]+\|", s)`: somewhere in `s`, a `|`, then one or
more whitespace/`-`/`|` characters, then a `|`. -/
def sepRowSearch : List Char → Bool
  | [] => false
  | c :: rest => (c = '|' && sepRowAfterBar rest false) || sepRowSearch rest

/-- The no-table error of CHECK 3. -/
def tableMissingMsg (title : String) (expected_cols : List String) : String :=
  "Section \x27" ++ title ++ "\x27 must contain a Markdown table (expected columns: " ++
    pyJoin ", " expected_cols ++ ")"

/-- Python's `repr` of a list of (quote-free) strings, as produced by
an f-string `{expected_cols}`. -/
def pyListRepr (l : List String) : String :=
  "[" ++ pyJoin ", " (l.map fun s => "\x27" ++ s ++ "\x27") ++ "]"

/-- The wrong-columns error of CHECK 3. -/
def tableWrongColsMsg (title : String) (expected actual : List String) : String :=
  "Section \x27" ++ title ++ "\x27 has wrong table columns. Expected: " ++
    pyListRepr expected ++ ". Got: " ++ pyListRepr actual

/-- CHECK 3 (validation_helpers.py 140-183): every `type="table"`
allowlist entry must have, under its heading, a pipe table with a
separator row and (when columns are specified) matching header cells. -/
def tableContentErrors (allowlist : List (String × ExpectedSection))
    (headingsNorm : List (Nat × String)) (doc_lines : List String) : List String :=
  allowlist.filterMap fun p =>
    if p.2.etype ≠ "table" then none
    else
      match (headingsNorm.filter fun h => pyContains h.2 p.1).head? with
      | none => none
      | some h =>
        let heading_line_idx := h.1
        let next_heading_idx :=
          ((headingsNorm.filter fun q => heading_line_idx < q.1).head?.map Prod.fst).getD
            doc_lines.length
        let block_lines := (doc_lines.drop heading_line_idx).take
          (next_heading_idx - heading_line_idx)
        let block_text := pyJoin "\n" block_lines
        if ¬ (pyContains block_text "|" && sepRowSearch block_text.data) then
          some (tableMissingMsg p.2.title p.2.columns)
        else if p.2.columns ≠ [] then
          match ((block_lines.map pyStrip).filter fun l => pyStartsWith l "|").head? with
          | none => none
          | some first_table_line =>
            let actual_cols := ((pySplit first_table_line "|").map pyStrip).filter
              (fun c => c ≠ "")
            if p.2.columns.map pyLower ≠ actual_cols.map pyLower then
              some (tableWrongColsMsg p.2.title p.2.columns actual_cols)
            else none
        else none

/-- `validate_document_structure` (validation_helpers.py 31-196): `[]` for
table-only schemas and for schemas yielding no expected sections;
otherwise the missing-, extra- and table-errors in that order. -/
def validate_document_structure (document_text : String)
    (required_section : Schema) : List String :=
  if is_table_only_schema required_section then []
  else if (buildExpectedSections required_section).isEmpty then []
  else
    missingSectionErrors (allowlistOf required_section) (docHeadingsNorm document_text) ++
    extraSectionErrors required_section (allowlistOf required_section)
      (docHeadings document_text) (docHeadingsNorm document_text) ++
    tableContentErrors (allowlistOf required_section) (docHeadingsNorm document_text)
      (pySplit document_text "\n")

/-- C8: the structural validator is a pure function — calling it twice on
identical inputs returns identical error lists (in this embedding it is a
Lean function of its two arguments and nothing else, so determinism and
absence of side effects hold definitionally). -/
theorem validate_document_structure_deterministic
    (document_text : String) (required_section : Schema) :
    validate_document_structure document_text required_section =
      validate_document_structure document_text required_section := rfl

/-- C10: a non-table-only schema that yields an empty expected-section
list validates every document (the validator returns `[]` whatever the
text, including the empty string). -/
theorem empty_expected_sections_accepts_everything
    (document_text : String) (required_section : Schema)
    (h1 : is_table_only_schema required_section = false)
    (h2 : buildExpectedSections required_section = []) :
    validate_document_structure document_text required_section = [] := by
  unfold validate_document_structure
  rw [h1, h2]
  simp

/-- A non-table-only schema with no titled sections, used as the C10
witness. -/
def untitledSchema : Schema :=
  ⟨[⟨"", none, [], []⟩, ⟨"  ", some "text", [⟨" ", some "text", [], 1⟩], []⟩], "", ""⟩

/-- Witness for C10: the untitled schema accepts an arbitrary document. -/
theorem empty_expected_sections_accepts_everything_witness :
    validate_document_structure "# Anything\nsome prose" untitledSchema = [] :=
  empty_expected_sections_accepts_everything "# Anything\nsome prose" untitledSchema
    (by decide) (by decide)

/-! ## Claim C2: the missing-section containment test -/

/-- A structured schema with the single required subsection title
`"Customer Impact Analysis"`. -/
def customerImpactSchema : Schema :=
  ⟨[⟨"Overview", none, [⟨"Customer Impact Analysis", some "text", [], 1⟩], []⟩], "", ""⟩

/-- C2 counterexample: for the document `"## Customer Impact"` the
heading's normalized form IS contained in the allowlist entry's
normalized title (so the claimed bidirectional test succeeds and
predicts no error), yet the validator still reports the
missing-section error: the code only tests title-contained-in-heading. -/
theorem missing_check_not_bidirectional :
    ((docHeadingsNorm "## Customer Impact").any fun h =>
        pyContains h.2 (_normalise_heading "Customer Impact Analysis") ||
        pyContains (_normalise_heading "Customer Impact Analysis") h.2) = true
    ∧ validate_document_structure "## Customer Impact" customerImpactSchema =
        [missingMsg "Customer Impact Analysis"] := by
  decide

/-- `dictInsert` preserves a pointwise property of the entries. -/
theorem dictInsert_forall {β : Type} {P : String × β → Prop}
    {d : List (String × β)} {k : String} {v : β}
    (hd : ∀ x ∈ d, P x) (hkv : P (k, v)) : ∀ x ∈ dictInsert k v d, P x := by
  unfold dictInsert
  split
  · intro x hx
    rcases List.mem_map.mp hx with ⟨y, hy, rfl⟩
    split
    · exact hkv
    · exact hd y hy
  · intro x hx
    rcases List.mem_append.mp hx with h | h
    · exact hd x h
    · have := List.mem_singleton.mp h
      subst this
      exact hkv

/-- `dictOfList`'s fold preserves a pointwise property. -/
theorem dictOfList_forall {β : Type} {P : String × β → Prop} :
    ∀ (l d : List (String × β)), (∀ x ∈ l, P x) → (∀ x ∈ d, P x) →
      ∀ x ∈ l.foldl (fun d p => dictInsert p.1 p.2 d) d, P x := by
  intro l
  induction l with
  | nil => intro d _ hd x hx; exact hd x hx
  | cons p rest ih =>
    intro d hl hd x hx
    simp only [List.foldl_cons] at hx
    exact ih _ (fun y hy => hl y (List.mem_cons_of_mem _ hy))
      (dictInsert_forall hd (hl p (List.mem_cons_self _ _))) x hx

/-- Every allowlist entry's key is the normalisation of its value's title. -/
theorem allowlist_key_eq (required_section : Schema) :
    ∀ p ∈ allowlistOf required_section, p.1 = _normalise_heading p.2.title := by
  unfold allowlistOf dictOfList
  apply dictOfList_forall
  · intro x hx
    rcases List.mem_map.mp hx with ⟨e, _, rfl⟩
    rfl
  · intro x hx
    cases hx

/-- `String.data` distributes over append. -/
theorem pyDataAppend (s t : String) : (s ++ t).data = s.data ++ t.data := rfl

/-- `missingMsg` is injective. -/
theorem missingMsg_inj {a b : String} (h : missingMsg a = missingMsg b) : a = b := by
  unfold missingMsg at h
  have hdata := congrArg String.data h
  rw [pyDataAppend, pyDataAppend, pyDataAppend, pyDataAppend] at hdata
  have h1 := List.append_cancel_right hdata
  have h2 := List.append_cancel_left h1
  exact congrArg String.mk h2

/-- The first character of a missing-section error. -/
theorem missingMsg_head (t : String) : (missingMsg t).data.head? = some 'M' := rfl

/-- The first character of an extra-section error. -/
theorem extraMsg_head (t : String) : (extraMsg t).data.head? = some 'E' := rfl

/-- The first character of the no-table error. -/
theorem tableMissingMsg_head (t : String) (c : List String) :
    (tableMissingMsg t c).data.head? = some 'S' := rfl

/-- The first character of the wrong-columns error. -/
theorem tableWrongColsMsg_head (t : String) (c d : List String) :
    (tableWrongColsMsg t c d).data.head? = some 'S' := rfl

/-- Extra-section errors all carry the `extraMsg` shape. -/
theorem mem_extraSectionErrors_shape {required_section : Schema}
    {alw : List (String × ExpectedSection)} {hs hns : List (Nat × String)} {x : String}
    (hx : x ∈ extraSectionErrors required_section alw hs hns) :
    ∃ r, x = extraMsg r := by
  unfold extraSectionErrors at hx
  rcases List.mem_filterMap.mp hx with ⟨hp, _, heq⟩
  dsimp only at heq
  split at heq
  · exact ⟨hp.1.2, (Option.some.inj heq).symm⟩
  · cases heq

/-- Table-content errors all begin with `'S'`. -/
theorem mem_tableContentErrors_head {alw : List (String × ExpectedSection)}
    {hns : List (Nat × String)} {dls : List String} {x : String}
    (hx : x ∈ tableContentErrors alw hns dls) : x.data.head? = some 'S' := by
  unfold tableContentErrors at hx
  rcases List.mem_filterMap.mp hx with ⟨p, _, heq⟩
  dsimp only at heq
  split at heq
  · cases heq
  · split at heq
    · cases heq
    · split at heq
      · rw [← Option.some.inj heq]
        exact tableMissingMsg_head _ _
      · split at heq
        · split at heq
          · cases heq
          · split at heq
            · rw [← Option.some.inj heq]
              exact tableWrongColsMsg_head _ _ _
            · cases heq
        · cases heq

/-- A missing-section error never equals an extra-section error. -/
theorem missingMsg_ne_extraMsg (a b : String) : missingMsg a ≠ extraMsg b := by
  intro h
  have := congrArg (fun s => s.data.head?) h
  simp only [missingMsg_head, extraMsg_head] at this
  cases this

/-- C2 (amended): the missing-section check is one-directional — the
validator reports `"Missing required section: '<title>'"` for an allowlist
entry if and only if NO document heading's normalized form contains the
entry's normalized title (a heading merely contained BY the title does not
satisfy the check, contrary to the bidirectional reading). -/
theorem missing_error_iff_no_heading_contains_title
    (document_text : String) (required_section : Schema)
    (nt : String) (e : ExpectedSection)
    (h1 : is_table_only_schema required_section = false)
    (hmem : (nt, e) ∈ allowlistOf required_section) :
    (missingMsg e.title ∈ validate_document_structure document_text required_section ↔
      (docHeadingsNorm document_text).any (fun h => pyContains h.2 nt) = false) := by
  have hkey : nt = _normalise_heading e.title := allowlist_key_eq required_section (nt, e) hmem
  have hne : (buildExpectedSections required_section).isEmpty = false := by
    rcases hbe : buildExpectedSections required_section with _ | ⟨a, rest⟩
    · exfalso
      unfold allowlistOf at hmem
      rw [hbe] at hmem
      simp [dictOfList] at hmem
    · rfl
  unfold validate_document_structure
  rw [h1, hne]
  simp only [Bool.false_eq_true, if_false]
  constructor
  · intro hin
    rcases List.mem_append.mp hin with hin' | htab
    · rcases List.mem_append.mp hin' with hmiss | hextra
      · unfold missingSectionErrors at hmiss
        rcases List.mem_filterMap.mp hmiss with ⟨p, hp, heq⟩
        split at heq
        · cases heq
        · rename_i hcond
          have htitle : p.2.title = e.title := missingMsg_inj (Option.some.inj heq)
          have hpkey : p.1 = nt := by
            rw [allowlist_key_eq required_section p hp, htitle, ← hkey]
          rw [← hpkey]
          exact Bool.not_eq_true _ |>.mp hcond
      · exfalso
        rcases mem_extraSectionErrors_shape hextra with ⟨r, hr⟩
        exact missingMsg_ne_extraMsg e.title r hr
    · exfalso
      have := mem_tableContentErrors_head htab
      rw [missingMsg_head] at this
      cases this
  · intro hfalse
    apply List.mem_append.mpr
    left
    apply List.mem_append.mpr
    left
    unfold missingSectionErrors
    apply List.mem_filterMap.mpr
    refine ⟨(nt, e), hmem, ?_⟩
    rw [if_neg]
    simp [hfalse]

/-- Witness for C2 (amended): for the document `"## Scope"` no heading
contains the normalized title, and the theorem yields the error. -/
theorem missing_error_iff_no_heading_contains_title_witness :
    missingMsg "Customer Impact Analysis" ∈
      validate_document_structure "## Scope" customerImpactSchema :=
  (missing_error_iff_no_heading_contains_title "## Scope" customerImpactSchema
    (_normalise_heading "Customer Impact Analysis")
    ⟨"Customer Impact Analysis", "text", []⟩ (by decide) (by decide)).mpr (by decide)

/-! ## Quality gate (agent_graph.py 674-859)

The pipeline state (`AgentState`) carries the fields the embedded nodes
read and write.  A node returns a partial update merged into the state;
`GateUpdate.generated_document = none` models the absence of the
`generated_document` key from the returned dict.  The LLM review call of
the structured path (agent_graph.py 782-826) is abstracted as an oracle:
`some r` stands for a review whose JSON parsed to `r`, `none` for any
exception in the call or the parse, which sends the gate to the
deterministic fallback rules. -/

structure AgentState where
  department : String
  document_type : String
  required_section : Schema
  system_prompt : String
  generated_document : String
  quality_scores : List (String × Int)
  quality_issues : List String
  quality_suggestions : List String
  retry_count : Nat
  status : String
deriving DecidableEq, Repr

structure GateUpdate where
  generated_document : Option String
  quality_scores : List (String × Int)
  quality_issues : List String
  quality_suggestions : List String
  status : String
deriving DecidableEq, Repr

/-- A parsed review JSON object; `none` fields model absent keys, whose
`.get` defaults are applied where the gate reads them. -/
structure ReviewResult where
  scores : List (String × Int)
  overall_score : Option Int
  passed : Option Bool
  issues : List String
  suggestions : List String
deriving DecidableEq, Repr

/-- The table-only scan of the quality gate (agent_graph.py 689-698):
remember the last stripped line starting with `"# "` (but not `"## "`)
as the heading, and collect every stripped line starting with `"|"`. -/
def docTableScan (document_text : String) : String × List String :=
  (pySplit document_text "\n").foldl
    (fun acc line =>
      let stripped := pyStrip line
      if pyStartsWith stripped "# " && ¬ pyStartsWith stripped "## " then
        (stripped, acc.2)
      else if pyContains stripped "|" && pyStartsWith stripped "|" then
        (acc.1, acc.2 ++ [stripped])
      else acc)
    ("", [])

/-- The heading line found by the table-only scan (`""` when none). -/
def docHeadingLine (document_text : String) : String :=
  (docTableScan document_text).1

/-- The pipe lines collected by the table-only scan. -/
def docTableLines (document_text : String) : List String :=
  (docTableScan document_text).2

/-- Header cells (agent_graph.py 714): split on `|`, strip, drop empties. -/
def actualColumnsOf (header_line : String) : List String :=
  ((pySplit header_line "|").map pyStrip).filter (fun c => c ≠ "")

/-- `[col.lower().strip() for col in cols]` (agent_graph.py 715-716). -/
def normCols (cols : List String) : List String :=
  cols.map fun c => pyStrip (pyLower c)

/-- The no-table issue of the table-only path (agent_graph.py 704-708). -/
def tableOnlyNoTableMsg (doc_name : String) (expected_columns : List String) : String :=
  "TABLE-ONLY SCHEMA: No Markdown table found. Output ONLY: # " ++ doc_name ++
    " + a table with columns: " ++ pyJoin ", " expected_columns ++ "."

/-- The column-mismatch issue of the table-only path (agent_graph.py 722-725). -/
def tableOnlyWrongColsMsg (expected_columns actual_columns : List String) : String :=
  "Wrong columns. Expected: | " ++ pyJoin " | " expected_columns ++
    " | Got: | " ++ pyJoin " | " actual_columns ++ " |"

/-- The five placeholder phrases of the fallback rules (agent_graph.py 833). -/
def forbiddenPhrases : List String :=
  ["TBD", "to be decided", "[Company Name]", "[Insert", "Lorem ipsum"]

/-- The issue list of the rule-based fallback (agent_graph.py 829-844). -/
def fallbackIssues (document_text : String) : List String :=
  (if pyLen document_text < 500 then ["Document is too short (< 500 chars)"] else []) ++
  (forbiddenPhrases.filterMap fun phrase =>
    if pyContains (pyLower document_text) (pyLower phrase) then
      some ("Contains placeholder: \x27" ++ phrase ++ "\x27")
    else none) ++
  (if pyCount document_text "\n#" < 5 then
    ["Too few sections (expected at least 5 headings)"] else []) ++
  (let sections_split := pySplit document_text "\n## "
   let thin := (sections_split.drop 1).filter fun s => pyLen (pyStrip s) < 100
   if ¬ thin.isEmpty then
     [toString thin.length ++ " sections are too thin — expand with detail"]
   else [])

/-- The targeted suggestions of the structured failure path
(agent_graph.py 752-771). -/
def structuredSuggestions (structure_errors : List String) : List String :=
  (if ¬ (structure_errors.filter fun m => pyStartsWith m "Missing").isEmpty then
    ["Add ALL missing sections using their EXACT titles from the schema — do not rename them."]
   else []) ++
  (if ¬ (structure_errors.filter fun m => pyStartsWith m "Extra").isEmpty then
    ["REMOVE every heading not in the schema. The document must contain ONLY the sections defined in the schema — nothing more."]
   else []) ++
  (if ¬ (structure_errors.filter fun m => pyStartsWith m "Section").isEmpty then
    ["Ensure every table section contains a real Markdown table with the exact column headers specified in the schema."]
   else [])

/-- `quality_gate` (agent_graph.py 674-859). -/
def quality_gate (review : Option ReviewResult) (state : AgentState) : GateUpdate :=
  let document_text := state.generated_document
  if is_table_only_schema state.required_section then
    let expected_columns := get_table_columns state.required_section
    let doc_name := get_table_section_title state.required_section
    let heading_line := docHeadingLine document_text
    let table_lines := docTableLines document_text
    if table_lines.length < 3 then
      ⟨none, [], [tableOnlyNoTableMsg doc_name expected_columns], [], "failed"⟩
    else
      let actual_columns := actualColumnsOf (table_lines.headD "")
      if normCols expected_columns ≠ normCols actual_columns then
        ⟨none, [], [tableOnlyWrongColsMsg expected_columns actual_columns], [], "failed"⟩
      else
        let heading := if heading_line = "" then "# " ++ doc_name else heading_line
        ⟨some (heading ++ "\n\n" ++ pyJoin "\n" table_lines ++ "\n"),
         [("structure", 5), ("completeness", 5)], [], [], "passed"⟩
  else
    let structure_errors := validate_document_structure document_text state.required_section
    if ¬ structure_errors.isEmpty then
      ⟨none, [("structure", 1)], structure_errors,
       structuredSuggestions structure_errors, "failed"⟩
    else
      match review with
      | some r =>
        let overall_score := r.overall_score.getD 3
        let passed := r.passed.getD (overall_score ≥ 3)
        if passed then ⟨none, r.scores, [], r.suggestions, "passed"⟩
        else ⟨none, r.scores, r.issues, r.suggestions, "failed"⟩
      | none =>
        let issues_found := fallbackIssues document_text
        if ¬ issues_found.isEmpty then ⟨none, [], issues_found, [], "failed"⟩
        else ⟨none, [], [], [], "passed"⟩

/-- C9: the quality gate never touches the document on failure — whenever
the verdict's status is `"failed"` (no table found, column mismatch,
structural errors, failed LLM review, or triggered fallback rule), the
partial update carries no `generated_document` key, so the document text
in the pipeline state is unchanged; only the table-only success path
rewrites it. -/
theorem quality_gate_cases (review : Option ReviewResult) (state : AgentState) :
    (quality_gate review state).generated_document = none ∨
    (quality_gate review state).status = "passed" := by
  unfold quality_gate
  dsimp only
  split
  · split
    · left; rfl
    · split
      · left; rfl
      · right; rfl
  · split
    · left; rfl
    · split
      · split
        · right; rfl
        · left; rfl
      · split
        · left; rfl
        · right; rfl

theorem quality_gate_failure_keeps_document
    (review : Option ReviewResult) (state : AgentState)
    (h : (quality_gate review state).status = "failed") :
    (quality_gate review state).generated_document = none := by
  rcases quality_gate_cases review state with hd | hp
  · exact hd
  · exact absurd (h.symm.trans hp) (by decide)

/-- C4: on the table-only success path the gate rewrites the document to
exactly the level-1 heading line (synthesized as `"# "` plus the table
title when the scan found no `"# "` line) followed by the extracted pipe
lines, discarding all other prose, and passes with fixed scores
`{structure: 5, completeness: 5}`. -/
theorem table_only_success_rewrites_document
    (review : Option ReviewResult) (state : AgentState)
    (htab : is_table_only_schema state.required_section = true)
    (hlen : 3 ≤ (docTableLines state.generated_document).length)
    (hcols : normCols (get_table_columns state.required_section) =
      normCols (actualColumnsOf ((docTableLines state.generated_document).headD ""))) :
    quality_gate review state =
      ⟨some ((if docHeadingLine state.generated_document = "" then
            "# " ++ get_table_section_title state.required_section
          else docHeadingLine state.generated_document) ++ "\n\n" ++
          pyJoin "\n" (docTableLines state.generated_document) ++ "\n"),
       [("structure", 5), ("completeness", 5)], [], [], "passed"⟩ := by
  unfold quality_gate
  dsimp only
  rw [if_pos htab,
    if_neg (by omega : ¬ (docTableLines state.generated_document).length < 3),
    if_neg (by simp [hcols])]

/-- The single-table schema used by the quality-gate witnesses. -/
def singleTableSchema : Schema :=
  ⟨[⟨"", some "table", [], ["ID", "Date", "Status"]⟩], "Change Request Log", ""⟩

/-- A state whose document holds a valid table surrounded by prose. -/
def goodTableState : AgentState :=
  ⟨"Engineering", "Change Request Log", singleTableSchema, "",
   "Intro prose\n# Change Request Log\n| id | Date | Status |\n| --- | --- | --- |\n| 1 | 2024-01-01 | Open |\nTrailing prose",
   [], [], [], 0, "generating"⟩

/-- Witness for C4: the surrounding prose is discarded and only the
heading plus the table lines survive. -/
theorem table_only_success_rewrites_document_witness :
    quality_gate none goodTableState =
      ⟨some "# Change Request Log\n\n| id | Date | Status |\n| --- | --- | --- |\n| 1 | 2024-01-01 | Open |\n",
       [("structure", 5), ("completeness", 5)], [], [], "passed"⟩ := by
  have h := table_only_success_rewrites_document none goodTableState
    (by decide) (by decide) (by decide)
  rw [h]
  decide

/-- C5: for a table-only schema the gate fails in exactly two cases —
fewer than 3 pipe lines (the single issue names the required columns), or
a header whose trimmed lowercased cells differ from the expected columns
(the issue names both lists); a header matching up to case and
surrounding whitespace therefore passes. -/
theorem table_only_failure_characterization
    (review : Option ReviewResult) (state : AgentState)
    (htab : is_table_only_schema state.required_section = true) :
    ((quality_gate review state).status = "failed" ↔
      ((docTableLines state.generated_document).length < 3 ∨
       normCols (get_table_columns state.required_section) ≠
         normCols (actualColumnsOf ((docTableLines state.generated_document).headD ""))))
    ∧ ((docTableLines state.generated_document).length < 3 →
        (quality_gate review state).quality_issues =
          [tableOnlyNoTableMsg (get_table_section_title state.required_section)
            (get_table_columns state.required_section)])
    ∧ (3 ≤ (docTableLines state.generated_document).length →
        normCols (get_table_columns state.required_section) ≠
          normCols (actualColumnsOf ((docTableLines state.generated_document).headD "")) →
        (quality_gate review state).quality_issues =
          [tableOnlyWrongColsMsg (get_table_columns state.required_section)
            (actualColumnsOf ((docTableLines state.generated_document).headD ""))]) := by
  unfold quality_gate
  dsimp only
  rw [if_pos htab]
  by_cases hl : (docTableLines state.generated_document).length < 3
  · rw [if_pos hl]
    exact ⟨iff_of_true rfl (Or.inl hl), fun _ => rfl, fun h3 _ => absurd hl (by omega)⟩
  · rw [if_neg hl]
    by_cases hc : normCols (get_table_columns state.required_section) ≠
        normCols (actualColumnsOf ((docTableLines state.generated_document).headD ""))
    · rw [if_pos hc]
      exact ⟨iff_of_true rfl (Or.inr hc), fun h => absurd h hl, fun _ _ => rfl⟩
    · rw [if_neg hc]
      refine ⟨iff_of_false ?_ (fun h => h.elim hl hc),
        fun h => absurd h hl, fun _ h => absurd h hc⟩
      intro hq
      exact absurd (show ("passed" : String) = "failed" from hq) (by decide)

/-- A state whose document holds no pipe lines at all. -/
def shortTableState : AgentState :=
  ⟨"Engineering", "Change Request Log", singleTableSchema, "",
   "There is no table in this output, only prose.", [], [], [], 0, "generating"⟩

/-- Witness for C5: with no pipe lines the gate fails and the single
issue names the required columns. -/
theorem table_only_failure_characterization_witness :
    (quality_gate none shortTableState).status = "failed" ∧
    (quality_gate none shortTableState).quality_issues =
      [tableOnlyNoTableMsg "Change Request Log" ["ID", "Date", "Status"]] := by
  have h := table_only_failure_characterization none shortTableState (by decide)
  exact ⟨h.1.mpr (Or.inl (by decide)),
    (h.2.1 (by decide)).trans (by decide)⟩

/-- Witness for C9: on this failing input the verdict carries no
document rewrite. -/
theorem quality_gate_failure_keeps_document_witness :
    (quality_gate none shortTableState).generated_document = none :=
  quality_gate_failure_keeps_document none shortTableState (by decide)

/-! ## Repair node, routing and the bounded loop (agent_graph.py 866-916,
923-962)

The LLM is an oracle `llm : String → String → String` taking the system
and human messages; `fix_document` and `generate_document` call it with
the exact instruction strings the source builds. -/

/-- The repair instruction built by `fix_document` (agent_graph.py 874-893). -/
def fixInstruction (state : AgentState) : String :=
  let issues_text := pyJoin "\n" (state.quality_issues.map fun i => "- " ++ i)
  let suggestions_text := pyJoin "\n" (state.quality_suggestions.map fun s => "- " ++ s)
  let base :=
    "The following document was generated but failed quality review:\n\n--- DOCUMENT START ---\n"
    ++ state.generated_document ++ "\n--- DOCUMENT END ---\n\n## Quality Issues Found:\n"
    ++ issues_text ++ "\n"
  let base :=
    if suggestions_text ≠ "" then
      base ++ "\n## Reviewer Suggestions:\n" ++ suggestions_text ++ "\n"
    else base
  base ++ "\n## Instructions:\n1. Fix ALL the issues listed above.\n2. Expand any thin or superficial sections.\n3. Ensure every section has at least 2-3 detailed sentences.\n4. Remove all placeholder text.\n5. Add concrete metrics, timelines, or action items where appropriate.\n6. Output ONLY the corrected Markdown document — no commentary."

/-- `fix_document` (agent_graph.py 866-901): one repair LLM call; replaces
the document and increments `retry_count`. -/
def fix_document (llm : String → String → String) (state : AgentState) : AgentState :=
  { state with
    generated_document := llm state.system_prompt (fixInstruction state),
    retry_count := state.retry_count + 1 }

/-- The human instruction of `generate_document` (agent_graph.py 442-456). -/
def generateInstruction (state : AgentState) : String :=
  if is_table_only_schema state.required_section then
    "Generate the " ++ get_table_section_title state.required_section ++
      " as a Markdown table now. Output ONLY the heading and table — no introductions, no descriptions, no extra sections. Just the title and the table with data rows."
  else
    "Generate the complete " ++ state.document_type ++
      " document now. Remember: elevate every answer into professional, industry-grade prose. Do NOT copy answers verbatim."

/-- `generate_document` (agent_graph.py 438-467): one generation LLM call;
its partial update replaces only `generated_document`. -/
def generate_document (llm : String → String → String) (state : AgentState) : AgentState :=
  { state with generated_document := llm state.system_prompt (generateInstruction state) }

/-- Merging the quality gate's partial update into the state: the
`generated_document` key is present only on the table-only success path. -/
def applyGateUpdate (state : AgentState) (u : GateUpdate) : AgentState :=
  { state with
    generated_document := u.generated_document.getD state.generated_document,
    quality_scores := u.quality_scores,
    quality_issues := u.quality_issues,
    quality_suggestions := u.quality_suggestions,
    status := u.status }

/-- `decide_after_quality_gate` (agent_graph.py 908-916). -/
def decide_after_quality_gate (state : AgentState) : String :=
  if state.status = "passed" then "end"
  else if 2 ≤ state.retry_count then "end"
  else "fix_document"

/-- The `quality_gate → (fix_document → quality_gate)*` loop of the
compiled graph (agent_graph.py 949-958), abstracted over the gate node
(its review oracle may differ per iteration) and counting LLM generation
calls; the fuel argument only bounds the recursion and any value ≥ 3
yields the fixed point. -/
def runQualityLoop (gate : AgentState → GateUpdate) (llm : String → String → String) :
    Nat → AgentState → Nat → AgentState × Nat
  | 0, state, calls => (state, calls)
  | fuel + 1, state, calls =>
    let verdict := applyGateUpdate state (gate state)
    if decide_after_quality_gate verdict = "end" then (verdict, calls)
    else runQualityLoop gate llm fuel (fix_document llm verdict) (calls + 1)

/-- `generate_document` followed by the quality-gate loop, starting the
generation-call count at 1 (the initial generation). -/
def runFromGenerate (gate : AgentState → GateUpdate) (llm : String → String → String)
    (fuel : Nat) (state : AgentState) : AgentState × Nat :=
  runQualityLoop gate llm fuel (generate_document llm state) 1

/-- If the gate always fails, the loop drains the retry budget: it ends in
a `"failed"` state with `retry_count = 2`, having added one generation
call per missing retry. -/
theorem runQualityLoop_always_failed
    (gate : AgentState → GateUpdate) (llm : String → String → String)
    (hfail : ∀ t, (gate t).status = "failed") :
    ∀ (fuel : Nat) (state : AgentState) (calls : Nat),
      3 ≤ state.retry_count + fuel → state.retry_count ≤ 2 →
      (runQualityLoop gate llm fuel state calls).1.status = "failed" ∧
      (runQualityLoop gate llm fuel state calls).1.retry_count = 2 ∧
      (runQualityLoop gate llm fuel state calls).2 = calls + (2 - state.retry_count) := by
  intro fuel
  induction fuel with
  | zero => intro state calls h3 h2; omega
  | succ n ih =>
    intro state calls h3 h2
    simp only [runQualityLoop]
    have hst : (applyGateUpdate state (gate state)).status = "failed" := by
      simp [applyGateUpdate, hfail]
    have hrc : (applyGateUpdate state (gate state)).retry_count = state.retry_count := by
      simp [applyGateUpdate]
    by_cases hend : decide_after_quality_gate (applyGateUpdate state (gate state)) = "end"
    · rw [if_pos hend]
      have h2le : 2 ≤ state.retry_count := by
        by_contra hlt
        unfold decide_after_quality_gate at hend
        rw [hst, hrc] at hend
        rw [if_neg (by decide), if_neg (by omega)] at hend
        exact absurd hend (by decide)
      have h2eq : state.retry_count = 2 := by omega
      refine ⟨hst, ?_, ?_⟩
      · show (applyGateUpdate state (gate state)).retry_count = 2
        omega
      · show calls = calls + (2 - state.retry_count)
        omega
    · rw [if_neg hend]
      have hlt : state.retry_count < 2 := by
        by_contra hge
        unfold decide_after_quality_gate at hend
        rw [hst, hrc] at hend
        rw [if_neg (by decide), if_pos (by omega)] at hend
        exact absurd rfl hend
      have hfixrc : (fix_document llm (applyGateUpdate state (gate state))).retry_count =
          state.retry_count + 1 := by
        simp [fix_document, hrc]
      have := ih (fix_document llm (applyGateUpdate state (gate state))) (calls + 1)
        (by omega) (by omega)
      refine ⟨this.1, this.2.1, ?_⟩
      rw [this.2.2, hfixrc]
      omega

/-- C1: when the quality gate fails on every document, the routing sends
the pipeline back to repair exactly twice and then to END: the run
performs exactly 3 generation calls (1 initial + 2 repairs) and
terminates with `status = "failed"` and `retry_count = 2`. -/
theorem pipeline_always_failed_three_calls
    (gate : AgentState → GateUpdate) (llm : String → String → String)
    (fuel : Nat) (state : AgentState)
    (hfuel : 3 ≤ fuel) (hretry : state.retry_count = 0)
    (hfail : ∀ t, (gate t).status = "failed") :
    (runFromGenerate gate llm fuel state).1.status = "failed" ∧
    (runFromGenerate gate llm fuel state).1.retry_count = 2 ∧
    (runFromGenerate gate llm fuel state).2 = 3 := by
  unfold runFromGenerate
  have hg : (generate_document llm state).retry_count = 0 := by
    simp [generate_document, hretry]
  have h := runQualityLoop_always_failed gate llm hfail fuel
    (generate_document llm state) 1 (by omega) (by omega)
  exact ⟨h.1, h.2.1, by rw [h.2.2, hg]⟩

/-- Witness for C1: with a gate that rejects every document, the run from
a fresh state makes exactly 3 generation calls and stops failed with
`retry_count = 2`. -/
theorem pipeline_always_failed_three_calls_witness :
    ((runFromGenerate (fun _ => ⟨none, [], ["no table"], [], "failed"⟩)
        (fun _ _ => "no table, just prose") 3 shortTableState).1.status = "failed" ∧
     (runFromGenerate (fun _ => ⟨none, [], ["no table"], [], "failed"⟩)
        (fun _ _ => "no table, just prose") 3 shortTableState).1.retry_count = 2 ∧
     (runFromGenerate (fun _ => ⟨none, [], ["no table"], [], "failed"⟩)
        (fun _ _ => "no table, just prose") 3 shortTableState).2 = 3) :=
  pipeline_always_failed_three_calls (fun _ => ⟨none, [], ["no table"], [], "failed"⟩)
    (fun _ _ => "no table, just prose") 3 shortTableState (by omega) (by decide)
    (fun _ => rfl)
